import Mathlib

/-!
Verification development for the Canadian-Governance figure scripts.

The scripts are matplotlib/geopandas plotting programs.  The logic worth
verifying is the label-placement resolver (explicit override, manual offset
table, Atlantic heuristic, centroid fallback), its coordinate-pair validator,
the leader-line rule, the shared panel extent, the legend deduplication, and
the fatal-error checks.  Coordinates are embedded as rationals; Python values
fed to the validator are embedded as a small dynamic universe `PyVal`.
-/

set_option autoImplicit false

namespace CanGov

/-- A small universe of Python values as seen by the coordinate validator:
`none` is Python None, `num` a numeric scalar, `tup` a tuple/list (iterable,
sized, subscriptable), `pyset` a set (iterable, sized, not subscriptable),
`obj` an opaque non-iterable object. -/
inductive PyVal where
  | none : PyVal
  | num : ℚ → PyVal
  | tup : List PyVal → PyVal
  | pyset : List PyVal → PyVal
  | obj : PyVal

/-- Python `hasattr(v, "iter dunder")`: tuples/lists and sets are iterable. -/
def hasIter : PyVal → Bool
  | PyVal.tup _ => true
  | PyVal.pyset _ => true
  | _ => false

/-- Python `len(v)`; `Option.none` models a TypeError. -/
def pyLen : PyVal → Option Nat
  | PyVal.tup xs => some xs.length
  | PyVal.pyset xs => some xs.length
  | _ => Option.none

/-- Python `v[i]` for a nonnegative index; `Option.none` models a TypeError
or IndexError.  Sets are iterable but not subscriptable. -/
def pyGetItem : PyVal → Nat → Option PyVal
  | PyVal.tup xs, i => xs.get? i
  | _, _ => Option.none

/-- The elements produced by iterating a Python value. -/
def pyElems : PyVal → Option (List PyVal)
  | PyVal.tup xs => some xs
  | PyVal.pyset xs => some xs
  | _ => Option.none

/-- Python tuple unpacking `a, b = v`: succeeds on any iterable yielding
exactly two elements, including sets. -/
def pyUnpack2 : PyVal → Option (PyVal × PyVal)
  | PyVal.tup [a, b] => some (a, b)
  | PyVal.pyset [a, b] => some (a, b)
  | _ => Option.none

/-- Python `float(v)`; `Option.none` models the TypeError/ValueError raised
on non-numeric input (None, containers, opaque objects). -/
def pyFloat : PyVal → Option ℚ
  | PyVal.num q => some q
  | _ => Option.none

/-- Python truthiness of a value of the universe. -/
def pyTruthy : PyVal → Bool
  | PyVal.none => false
  | PyVal.num q => decide (q ≠ 0)
  | PyVal.tup xs => !xs.isEmpty
  | PyVal.pyset xs => !xs.isEmpty
  | PyVal.obj => true

/-- The `validate_xy` helper of the panel plotting functions (indexing form):
None is rejected; otherwise inside a try block the value must be iterable with
`len == 2` and `float(xy[0])`, `float(xy[1])` must succeed; any exception and
every other path returns False. -/
def validate_xy (xy : PyVal) : Bool :=
  match xy with
  | PyVal.none => false
  | v =>
    if hasIter v && (pyLen v == some 2) then
      match pyGetItem v 0, pyGetItem v 1 with
      | some a, some b => (pyFloat a).isSome && (pyFloat b).isSome
      | _, _ => false
    else false

/-- The `validate_xy` helper of `plot_map_with_icons_below_labels`: same
shape, but the elements are obtained by tuple unpacking `x0, y0 = xy` rather
than by indexing. -/
def validate_xy_icons (xy : PyVal) : Bool :=
  match xy with
  | PyVal.none => false
  | v =>
    if hasIter v && (pyLen v == some 2) then
      match pyUnpack2 v with
      | some ab => (pyFloat ab.1).isSome && (pyFloat ab.2).isSome
      | Option.none => false
    else false

/-- Stated from the claim wording: the input is an iterable of length 2 whose
two elements both convert to float.  Used to compare the validators against
the claimed characterisation. -/
def iterableLen2Floats (v : PyVal) : Bool :=
  match pyElems v with
  | some [a, b] => (pyFloat a).isSome && (pyFloat b).isSome
  | _ => false

/-- The assignment `label_x, label_y = xy` after a successful validation:
unpack the pair and read both coordinates as rationals. -/
def unpackXY (v : PyVal) : ℚ × ℚ :=
  match pyUnpack2 v with
  | some ab => ((pyFloat ab.1).getD 0, (pyFloat ab.2).getD 0)
  | Option.none => (0, 0)

/-- One `per_province` style entry.  `Option.none` in a field models an
absent dictionary key; `leader_line` is read with a False default. -/
structure ProvEntry where
  xy : Option PyVal := Option.none
  label_offset : Option PyVal := Option.none
  fontsize : Option ℚ := Option.none
  bboxFlag : Option Bool := Option.none
  leader_line : Bool := false
  line_start : Option PyVal := Option.none

/-- The `per_province` dictionary, in insertion order. -/
abbrev Table := List (String × ProvEntry)

/-- The `atlantic_manual_offsets` dictionary. -/
abbrev AMO := List (String × PyVal)

/-- Dictionary lookup on the per-province table. -/
def dictGet (t : Table) (k : String) : Option ProvEntry :=
  (t.find? (fun p => p.1 == k)).map (fun p => p.2)

/-- Dictionary lookup on the manual-offset table. -/
def dictGetV (t : AMO) (k : String) : Option PyVal :=
  (t.find? (fun p => p.1 == k)).map (fun p => p.2)

/-- Python `k in t` on the OUTER per-province dictionary: true when some
acronym key of the table equals `k`.  This is the membership test the buggy
resolver variants perform with k = "xy" and k = "label_offset". -/
def tableHasKey (t : Table) (k : String) : Bool :=
  t.any (fun p => p.1 == k)

/-- `per_province[acr]["xy"]` as an optional value (None when either key is
absent). -/
def lookup_xy (pp : Table) (acr : String) : Option PyVal :=
  match dictGet pp acr with
  | some e => e.xy
  | Option.none => Option.none

/-- `per_province[acr]["label_offset"]` as an optional value. -/
def lookup_label_offset (pp : Table) (acr : String) : Option PyVal :=
  match dictGet pp acr with
  | some e => e.label_offset
  | Option.none => Option.none

/-- The Atlantic set of the variants that spell Prince Edward Island PEI. -/
def atlanticPEI : List String := ["NL", "PEI", "NS", "NB"]

/-- The Atlantic set of the variants that spell Prince Edward Island PE. -/
def atlanticPE : List String := ["NL", "PE", "NS", "NB"]

/-- Steps 3 and 4 of the resolver: the Atlantic heuristic (per-acronym preset
offsets from the centroid) when the acronym is in the Atlantic set, otherwise
the plain centroid.  `pei` is the spelling used by the variant at hand. -/
def atlanticOrCentroid (atl : List String) (pei : String) (xOff yOff : ℚ)
    (acr : String) (cx cy : ℚ) : ℚ × ℚ :=
  if atl.contains acr then
    if acr == "NL" then (cx + xOff, cy + yOff * 1)
    else if acr == pei then (cx + xOff, cy + yOff * (3 / 2))
    else if acr == "NS" then (cx + xOff, cy - yOff * (1 / 2))
    else (cx + xOff, cy - yOff * 1)
  else (cx, cy)

/-- Steps 2 to 4 of the resolver: a valid `atlantic_manual_offsets` entry
wins, otherwise the Atlantic heuristic or the centroid.  `valf` is the
validator of the variant at hand. -/
def defaultPlacement (valf : PyVal → Bool) (amo : AMO) (atl : List String)
    (pei : String) (xOff yOff : ℚ) (acr : String) (cx cy : ℚ) : ℚ × ℚ :=
  match dictGetV amo acr with
  | some v => if valf v then unpackXY v else atlanticOrCentroid atl pei xOff yOff acr cx cy
  | Option.none => atlanticOrCentroid atl pei xOff yOff acr cx cy

/-- Base label position of the resolver variants that test
`"xy" in per_province[acr]` (the second 2x2 variant and the 1x2 variant):
a valid per-entry override wins, otherwise the default chain. -/
def basePlacementB (pp : Table) (amo : AMO) (atl : List String) (pei : String)
    (xOff yOff : ℚ) (acr : String) (cx cy : ℚ) : ℚ × ℚ :=
  match lookup_xy pp acr with
  | some v =>
      if validate_xy v then unpackXY v
      else defaultPlacement validate_xy amo atl pei xOff yOff acr cx cy
  | Option.none => defaultPlacement validate_xy amo atl pei xOff yOff acr cx cy

/-- The `label_offset` application of those variants: a valid per-entry
offset is added to the base position, anything else leaves it unchanged. -/
def applyLabelOffsetB (pp : Table) (acr : String) (p : ℚ × ℚ) : ℚ × ℚ :=
  match lookup_label_offset pp acr with
  | some off =>
      if validate_xy off then (p.1 + (unpackXY off).1, p.2 + (unpackXY off).2) else p
  | Option.none => p

/-- Full resolved label position for the per-entry variants. -/
def computeLabelPosB (pp : Table) (amo : AMO) (atl : List String) (pei : String)
    (xOff yOff : ℚ) (acr : String) (cx cy : ℚ) : ℚ × ℚ :=
  applyLabelOffsetB pp acr (basePlacementB pp amo atl pei xOff yOff acr cx cy)

/-- Base label position of the resolver variants whose guard is
`acr in per_province and "xy" in per_province and validate_xy(per_province[acr]["xy"])`:
the middle conjunct tests the OUTER dictionary keys.  When the guard reaches
`per_province[acr]["xy"]` and the entry has no xy key, Python raises KeyError,
modelled as `Except.error`. -/
def basePlacementWholeDict (pp : Table) (amo : AMO) (atl : List String)
    (pei : String) (xOff yOff : ℚ) (acr : String) (cx cy : ℚ) :
    Except String (ℚ × ℚ) :=
  if (dictGet pp acr).isSome && tableHasKey pp "xy" then
    match lookup_xy pp acr with
    | some v =>
        Except.ok (if validate_xy v then unpackXY v
          else defaultPlacement validate_xy amo atl pei xOff yOff acr cx cy)
    | Option.none => Except.error "KeyError xy"
  else Except.ok (defaultPlacement validate_xy amo atl pei xOff yOff acr cx cy)

/-- Full resolved label position for the whole-dict variants, whose
`label_offset` guard has the same outer-key bug. -/
def computeLabelPosWholeDict (pp : Table) (amo : AMO) (atl : List String)
    (pei : String) (xOff yOff : ℚ) (acr : String) (cx cy : ℚ) :
    Except String (ℚ × ℚ) :=
  match basePlacementWholeDict pp amo atl pei xOff yOff acr cx cy with
  | Except.ok base =>
      if (dictGet pp acr).isSome && tableHasKey pp "label_offset" then
        match lookup_label_offset pp acr with
        | some off =>
            Except.ok (if validate_xy off
              then (base.1 + (unpackXY off).1, base.2 + (unpackXY off).2) else base)
        | Option.none => Except.error "KeyError label_offset"
      else Except.ok base
  | Except.error e => Except.error e

/-- The `label_offset` application of `plot_map_with_icons_below_labels`
(per-entry key test, unpacking validator, invalid offsets ignored with a
warning). -/
def applyLabelOffsetIcons (pp : Table) (acr : String) (p : ℚ × ℚ) : ℚ × ℚ :=
  match lookup_label_offset pp acr with
  | some off =>
      if validate_xy_icons off then (p.1 + (unpackXY off).1, p.2 + (unpackXY off).2) else p
  | Option.none => p

/-- Resolved label position of `plot_map_with_icons_below_labels`: the
override guard tests `acr in per_province and "xy" in per_province` (outer
keys), warns and falls through on an invalid override, then applies the
manual-offset/Atlantic/centroid chain and the per-entry label offset. -/
def computeLabelPosIcons (pp : Table) (amo : AMO) (xOff yOff : ℚ)
    (acr : String) (cx cy : ℚ) : Except String (ℚ × ℚ) :=
  match
    (if (dictGet pp acr).isSome && tableHasKey pp "xy" then
      match lookup_xy pp acr with
      | some v =>
          Except.ok (if validate_xy_icons v then unpackXY v
            else defaultPlacement validate_xy_icons amo atlanticPE "PE" xOff yOff acr cx cy)
      | Option.none => Except.error "KeyError xy"
    else
      Except.ok (defaultPlacement validate_xy_icons amo atlanticPE "PE" xOff yOff acr cx cy) :
      Except String (ℚ × ℚ)) with
  | Except.ok base => Except.ok (applyLabelOffsetIcons pp acr base)
  | Except.error e => Except.error e

/-- Stated from the claim wording: the per-acronym multiplier of the vertical
Atlantic offset (+1.0 NL, +1.5 PE/PEI, -0.5 NS, -1.0 NB). -/
def atlanticMultiplier (pei acr : String) : ℚ :=
  if acr == "NL" then 1
  else if acr == pei then 3 / 2
  else if acr == "NS" then -(1 / 2)
  else -1

/-- Stated from the claim wording: the leader-line anchor is the explicit
`line_start` when it validates, otherwise the centroid. -/
def anchorPoint (e : ProvEntry) (cx cy : ℚ) : ℚ × ℚ :=
  match e.line_start with
  | some v => if validate_xy v then unpackXY v else (cx, cy)
  | Option.none => (cx, cy)

/-- One province row of the dataset: optional acronym (rows with an unmapped
name have none and are excluded from labeling), centroid, geometry bounds. -/
structure Row where
  acronym : Option String
  cx : ℚ
  cy : ℚ
  bxmin : ℚ
  bymin : ℚ
  bxmax : ℚ
  bymax : ℚ

/-- An axis-aligned bounding box, as returned by `total_bounds`. -/
structure Bounds where
  xmin : ℚ
  ymin : ℚ
  xmax : ℚ
  ymax : ℚ

/-- Bounds of the geometry of one row. -/
def rowBounds (r : Row) : Bounds :=
  { xmin := r.bxmin, ymin := r.bymin, xmax := r.bxmax, ymax := r.bymax }

/-- Union of two bounding boxes. -/
def mergeBounds (a b : Bounds) : Bounds :=
  { xmin := min a.xmin b.xmin, ymin := min a.ymin b.ymin,
    xmax := max a.xmax b.xmax, ymax := max a.ymax b.ymax }

/-- `gdf.total_bounds` over the whole dataset. -/
def totalBounds : List Row → Bounds
  | [] => { xmin := 0, ymin := 0, xmax := 0, ymax := 0 }
  | r :: rs => rs.foldl (fun b s => mergeBounds b (rowBounds s)) (rowBounds r)

/-- `hi - lo if (hi - lo) != 0 else 1.0`. -/
def spanOr1 (lo hi : ℚ) : ℚ :=
  if hi - lo == 0 then 1 else hi - lo

/-- The global x extent: dataset bounds padded by the padding fraction. -/
def paddedXLim (gdf : List Row) (pad : ℚ) : ℚ × ℚ :=
  let b := totalBounds gdf
  let xspan := spanOr1 b.xmin b.xmax
  (b.xmin - xspan * pad, b.xmax + xspan * pad)

/-- The global y extent: dataset bounds padded by the padding fraction with
the extra northward margin fraction added only to the top. -/
def paddedYLim (gdf : List Row) (pad northExtra : ℚ) : ℚ × ℚ :=
  let b := totalBounds gdf
  let yspan := spanOr1 b.ymin b.ymax
  (b.ymin - yspan * pad, b.ymax + yspan * pad + yspan * northExtra)

/-- The rows iterated for labeling: those with a non-null acronym, paired
with their centroid. -/
def labeledRows (gdf : List Row) : List (String × ℚ × ℚ) :=
  gdf.filterMap (fun r =>
    match r.acronym with
    | some a => some (a, r.cx, r.cy)
    | Option.none => Option.none)

/-- One value of a panel legend dictionary: color, member acronyms, optional
line style / text color / heading flag with their Python defaults. -/
structure LegendSettings where
  color : String
  acronyms : List String
  linestyle : String := "solid"
  text_color : String := "black"
  is_subtitle : Bool := false

/-- One matplotlib Patch handed to `ax.legend`, plus the bold flag applied
afterwards to heading entries. -/
structure LegendHandle where
  facecolor : String
  edgecolor : String
  linestyle : String
  label : String
  bold : Bool

/-- The Patch built for a regular (colored) legend entry. -/
def mkRegularHandle (label : String) (s : LegendSettings) : LegendHandle :=
  { facecolor := s.color, edgecolor := "black", linestyle := s.linestyle,
    label := label.trim, bold := false }

/-- The text-only Patch built for a heading (subtitle) entry; made bold
afterwards. -/
def subtitleHandle (label : String) : LegendHandle :=
  { facecolor := "none", edgecolor := "none", linestyle := "solid",
    label := label.trim, bold := true }

/-- The invisible spacer Patch inserted before the Some Activities heading. -/
def spacerHandle : LegendHandle :=
  { facecolor := "none", edgecolor := "none", linestyle := "solid",
    label := " ", bold := false }

/-- The 1x2 legend loop with its seen-labels accumulator: heading entries are
always appended (with the special spacer), regular entries are skipped when
their stripped label was already added. -/
def legendLoop1x2 (seen : List String) : List (String × LegendSettings) → List LegendHandle
  | [] => []
  | it :: rest =>
    if it.2.is_subtitle then
      (if it.1.trim == "Some Activities" then [spacerHandle] else [])
        ++ subtitleHandle it.1 :: legendLoop1x2 seen rest
    else if seen.contains it.1.trim then legendLoop1x2 seen rest
    else mkRegularHandle it.1 it.2 :: legendLoop1x2 (it.1.trim :: seen) rest

/-- The per-panel legend of `plot_1x2_panels`. -/
def buildPanelLegend1x2 (items : List (String × LegendSettings)) : List LegendHandle :=
  legendLoop1x2 [] items

/-- The 2x2 legend loop (second 2x2 variant): deduplication only, no heading
handling. -/
def legendLoop2x2 (seen : List String) : List (String × LegendSettings) → List LegendHandle
  | [] => []
  | it :: rest =>
    if seen.contains it.1.trim then legendLoop2x2 seen rest
    else mkRegularHandle it.1 it.2 :: legendLoop2x2 (it.1.trim :: seen) rest

/-- The per-panel legend of the second `plot_2x2_panels` variant. -/
def buildPanelLegend2x2 (items : List (String × LegendSettings)) : List LegendHandle :=
  legendLoop2x2 [] items

/-- The seen-labels set after processing a prefix of the legend items. -/
def seenAfter (seen : List String) : List (String × LegendSettings) → List String
  | [] => seen
  | it :: rest =>
    if it.2.is_subtitle then seenAfter seen rest
    else if seen.contains it.1.trim then seenAfter seen rest
    else seenAfter (it.1.trim :: seen) rest

/-- The stripped labels of the non-heading legend items, in order. -/
def regularCleanLabels (items : List (String × LegendSettings)) : List String :=
  (items.filter (fun it => !it.2.is_subtitle)).map (fun it => it.1.trim)

/-- A text drawn on an axis. -/
structure TextDraw where
  x : ℚ
  y : ℚ
  txt : String

/-- A straight line segment drawn on an axis. -/
structure LineDraw where
  x1 : ℚ
  y1 : ℚ
  x2 : ℚ
  y2 : ℚ

/-- The leader-line rule of the second 2x2 variant and the 1x2 variant: when
the per-province entry enables leader lines, draw from the anchor (a truthy
valid `line_start`, else the centroid) to the label, but only when the label
is offset by more than 1000 map units in x or in y. -/
def leaderLineDraw (pp : Table) (acr : String) (cx cy lx ly : ℚ) : Option LineDraw :=
  let e := (dictGet pp acr).getD {}
  if e.leader_line then
    let anchor :=
      match e.line_start with
      | some v => if pyTruthy v && validate_xy v then unpackXY v else (cx, cy)
      | Option.none => (cx, cy)
    if abs (lx - anchor.1) > 1000 ∨ abs (ly - anchor.2) > 1000 then
      some { x1 := anchor.1, y1 := anchor.2, x2 := lx, y2 := ly }
    else Option.none
  else Option.none

/-- What one panel contributes to the figure, as far as the verified claims
are concerned: its title, axis limits, label positions, leader lines and
legend handles. -/
structure PanelOut where
  title : String
  xlim : ℚ × ℚ
  ylim : ℚ × ℚ
  labels : List TextDraw
  leaders : List LineDraw
  legend : List LegendHandle

/-- Per-panel legend dictionary keyed by panel index. -/
abbrev PLI := List (Nat × List (String × LegendSettings))

/-- Lookup in the per-panel legend dictionary. -/
def dictGetNat (t : PLI) (k : Nat) : Option (List (String × LegendSettings)) :=
  (t.find? (fun p => p.1 == k)).map (fun p => p.2)

/-- One panel of the second `plot_2x2_panels` variant: labels placed by the
per-entry resolver (Atlantic spelling PEI), leader lines, shared extent, and
a deduplicated legend that is skipped on panel index 3. -/
def renderPanelB (gdf : List Row) (pp : Table) (amo : AMO) (xOff yOff : ℚ)
    (xl yl : ℚ × ℚ) (legendItems : List (String × LegendSettings))
    (panelIdx : Nat) (title : String) : PanelOut :=
  let labs := (labeledRows gdf).map (fun t =>
    let p := computeLabelPosB pp amo atlanticPEI "PEI" xOff yOff t.1 t.2.1 t.2.2
    { x := p.1, y := p.2, txt := t.1 })
  let lds := (labeledRows gdf).filterMap (fun t =>
    let p := computeLabelPosB pp amo atlanticPEI "PEI" xOff yOff t.1 t.2.1 t.2.2
    leaderLineDraw pp t.1 t.2.1 t.2.2 p.1 p.2)
  let leg := if !legendItems.isEmpty && panelIdx != 3
    then buildPanelLegend2x2 legendItems else []
  { title := title, xlim := xl, ylim := yl, labels := labs, leaders := lds, legend := leg }

/-- The second `plot_2x2_panels` variant: a wrong panel count is a fatal
ValueError raised before anything else; otherwise the global extent and the
Atlantic offsets are computed once and every panel is rendered with them. -/
def plot_2x2_panels (pds : List (String × List String)) (gdf : List Row)
    (pad northExtra xfrac yfrac : ℚ) (amo : AMO) (pp : Table) (pli : PLI) :
    Except String (List PanelOut) :=
  if pds.length != 4 then
    Except.error "panel_definitions must be a list/tuple of 4 items (2x2 grid)."
  else
    let b := totalBounds gdf
    let xOff := spanOr1 b.xmin b.xmax * xfrac
    let yOff := spanOr1 b.ymin b.ymax * yfrac
    let xl := paddedXLim gdf pad
    let yl := paddedYLim gdf pad northExtra
    Except.ok (pds.enum.map (fun ip =>
      renderPanelB gdf pp amo xOff yOff xl yl ((dictGetNat pli ip.1).getD []) ip.1 ip.2.1))

/-- The f-string message of the 1x2 panel-count check. -/
def panelCountMsg (nrows ncols : Nat) : String :=
  "panel_definitions must have " ++ toString (nrows * ncols) ++ " items for a "
    ++ toString nrows ++ "x" ++ toString ncols ++ " grid."

/-- One panel of `plot_1x2_panels`: same placement and leader lines as the
second 2x2 variant, legend built with heading support on every panel. -/
def renderPanel1x2 (gdf : List Row) (pp : Table) (amo : AMO) (xOff yOff : ℚ)
    (xl yl : ℚ × ℚ) (legendItems : List (String × LegendSettings))
    (title : String) : PanelOut :=
  let labs := (labeledRows gdf).map (fun t =>
    let p := computeLabelPosB pp amo atlanticPEI "PEI" xOff yOff t.1 t.2.1 t.2.2
    { x := p.1, y := p.2, txt := t.1 })
  let lds := (labeledRows gdf).filterMap (fun t =>
    let p := computeLabelPosB pp amo atlanticPEI "PEI" xOff yOff t.1 t.2.1 t.2.2
    leaderLineDraw pp t.1 t.2.1 t.2.2 p.1 p.2)
  let leg := if !legendItems.isEmpty then buildPanelLegend1x2 legendItems else []
  { title := title, xlim := xl, ylim := yl, labels := labs, leaders := lds, legend := leg }

/-- `plot_1x2_panels`: a panel count different from nrows*ncols is a fatal
ValueError raised before anything else; all panels share the global extent. -/
def plot_1x2_panels (pds : List (String × List String)) (gdf : List Row)
    (pad northExtra xfrac yfrac : ℚ) (amo : AMO) (pp : Table) (pli : PLI)
    (nrows ncols : Nat) : Except String (List PanelOut) :=
  if pds.length != nrows * ncols then
    Except.error (panelCountMsg nrows ncols)
  else
    let b := totalBounds gdf
    let xOff := spanOr1 b.xmin b.xmax * xfrac
    let yOff := spanOr1 b.ymin b.ymax * yfrac
    let xl := paddedXLim gdf pad
    let yl := paddedYLim gdf pad northExtra
    Except.ok (pds.enum.map (fun ip =>
      renderPanel1x2 gdf pp amo xOff yOff xl yl ((dictGetNat pli ip.1).getD []) ip.2.1))

/-- An icon image drawn at a point. -/
structure IconDraw where
  icon : String
  x : ℚ
  y : ℚ

/-- What `plot_map_with_icons_below_labels` draws, as far as the verified
claims are concerned. -/
structure IconsOut where
  labels : List TextDraw
  icons : List IconDraw
  xlim : ℚ × ℚ
  ylim : ℚ × ℚ

/-- The provinces that receive the fire icon. -/
def fire_acrs : List String := ["BC", "AB", "SK", "MB"]

/-- The provinces that receive the warning icon. -/
def warn_acrs : List String := ["BC", "ON"]

/-- The icons stacked below one label. -/
def iconsForLabel (acr : String) (iconX yFire yWarnBelow : ℚ) : List IconDraw :=
  if fire_acrs.contains acr then
    { icon := "fire", x := iconX, y := yFire }
      :: (if warn_acrs.contains acr then [{ icon := "warning", x := iconX, y := yWarnBelow }] else [])
  else if warn_acrs.contains acr then [{ icon := "warning", x := iconX, y := yFire }]
  else []

/-- `plot_map_with_icons_below_labels`: missing icon files are fatal
FileNotFoundError raised before any selection, bound computation or drawing;
an empty selection and an unsupported zoom mode are fatal ValueError; labels
are placed by the icons resolver and the icons stacked below them.
`fileExists` stands for `os.path.isfile`. -/
def plot_map_with_icons_below_labels (fileExists : String → Bool)
    (fire_icon_path warn_icon_path : String) (target_acronyms : Option (List String))
    (gdf : List Row) (pad northExtra xfrac yfrac nudgeFrac gapFrac : ℚ)
    (amo : AMO) (pp : Table) (icon_zoom_mode : String) : Except String IconsOut :=
  if !fileExists fire_icon_path then
    Except.error ("Fire icon not found: " ++ fire_icon_path)
  else if !fileExists warn_icon_path then
    Except.error ("Warning icon not found: " ++ warn_icon_path)
  else
    let selected :=
      match target_acronyms with
      | Option.none => gdf.filter (fun r => r.acronym.isSome)
      | some ts => gdf.filter (fun (r : Row) =>
          match r.acronym with
          | some a => ts.contains a
          | Option.none => false)
    if selected.isEmpty then
      Except.error "No provinces found for the provided acronyms / mapping."
    else
      let sb := totalBounds selected
      let xl := (sb.xmin - (sb.xmax - sb.xmin) * pad, sb.xmax + (sb.xmax - sb.xmin) * pad)
      let yl := (sb.ymin - (sb.ymax - sb.ymin) * pad,
                 sb.ymax + (sb.ymax - sb.ymin) * pad + (sb.ymax - sb.ymin) * northExtra)
      let gb := totalBounds gdf
      let xspan := spanOr1 gb.xmin gb.xmax
      let yspan := spanOr1 gb.ymin gb.ymax
      let xOff := xspan * xfrac
      let yOff := yspan * yfrac
      let gap := yspan * gapFrac
      if icon_zoom_mode != "pct" then
        Except.error "Only icon_zoom_mode pct is supported currently."
      else
        match (labeledRows gdf).mapM (fun (t : String × ℚ × ℚ) =>
            (computeLabelPosIcons pp amo xOff yOff t.1 t.2.1 t.2.2).map
              (fun p => (t.1, p))) with
        | Except.ok placed =>
            let labs := placed.map (fun (q : String × ℚ × ℚ) =>
              ({ x := q.2.1, y := q.2.2, txt := q.1 } : TextDraw))
            let icons := placed.foldr (fun (q : String × ℚ × ℚ) acc =>
              iconsForLabel q.1 (q.2.1 + xspan * nudgeFrac) (q.2.2 - gap) (q.2.2 - gap - gap) ++ acc) []
            Except.ok { labels := labs, icons := icons, xlim := xl, ylim := yl }
        | Except.error e => Except.error e

/-- The stripped labels of the swatch-bearing (black-edged) legend handles,
i.e. the handles produced from non-heading entries. -/
def blackLabels (hs : List LegendHandle) : List String :=
  (hs.filter (fun h => h.edgecolor == "black")).map (fun h => h.label)

/-- Input of the C1 evaluation: a single province entry with a valid
explicit coordinate override. -/
def ppC1 : Table := [("BC", { xy := some (PyVal.tup [PyVal.num 100, PyVal.num 200]) })]

/-- Input of the C3 witness: an entry whose xy key holds an invalid value. -/
def ppC3 : Table := [("NL", { xy := some PyVal.obj })]

/-- Input of the C7 witness: four panel definitions. -/
def pdsW7 : List (String × List String) := [("A", []), ("B", []), ("C", []), ("D", [])]

/-- First panel produced by the C7 witness run. -/
def panelW7 : PanelOut :=
  { title := "A", xlim := (0, 0), ylim := (0, 0), labels := [], leaders := [], legend := [] }

/-- Full output of the C7 witness run. -/
def outW7 : List PanelOut :=
  [panelW7, { panelW7 with title := "B" }, { panelW7 with title := "C" },
    { panelW7 with title := "D" }]

/-- Input of the C8 witness: one regular legend entry. -/
def itemsW8 : List (String × LegendSettings) :=
  [("In force", { color := "#006400", acronyms := [] })]

/-- Input of the C8 witness: a heading entry. -/
def subW8 : LegendSettings := { color := "none", acronyms := [], is_subtitle := true }

/-- The indexing validator accepts exactly the two-element tuples/lists whose
elements convert to float. -/
theorem validate_xy_char (v : PyVal) :
    validate_xy v = true
      ↔ ∃ a b, v = PyVal.tup [a, b] ∧ (pyFloat a).isSome = true ∧ (pyFloat b).isSome = true := by
  cases v with
  | none => simp [validate_xy]
  | num q => simp [validate_xy, hasIter]
  | obj => simp [validate_xy, hasIter]
  | pyset xs =>
    cases xs with
    | nil => simp [validate_xy, hasIter, pyLen, pyGetItem]
    | cons a t =>
      cases t with
      | nil => simp [validate_xy, hasIter, pyLen, pyGetItem]
      | cons b t2 =>
        cases t2 with
        | nil => simp [validate_xy, hasIter, pyLen, pyGetItem]
        | cons c t3 => simp [validate_xy, hasIter, pyLen, pyGetItem]
  | tup xs =>
    cases xs with
    | nil => simp [validate_xy, hasIter, pyLen, pyGetItem]
    | cons a t =>
      cases t with
      | nil => simp [validate_xy, hasIter, pyLen, pyGetItem]
      | cons b t2 =>
        cases t2 with
        | nil =>
          simp only [validate_xy, hasIter, pyLen, pyGetItem, List.get?, List.length_cons,
            List.length_nil, Bool.true_and, beq_self_eq_true, if_true, Bool.and_eq_true,
            PyVal.tup.injEq, List.cons.injEq, and_true]
          constructor
          · intro h
            exact ⟨a, b, ⟨rfl, rfl⟩, h.1, h.2⟩
          · rintro ⟨a2, b2, ⟨rfl, rfl⟩, h1, h2⟩
            exact ⟨h1, h2⟩
        | cons c t3 => simp [validate_xy, hasIter, pyLen, pyGetItem]

/-- The unpacking validator accepts exactly the two-element iterables whose
elements convert to float. -/
theorem validate_xy_icons_char (v : PyVal) :
    validate_xy_icons v = true ↔ iterableLen2Floats v = true := by
  cases v with
  | none => simp [validate_xy_icons, iterableLen2Floats, pyElems]
  | num q => simp [validate_xy_icons, iterableLen2Floats, hasIter, pyElems]
  | obj => simp [validate_xy_icons, iterableLen2Floats, hasIter, pyElems]
  | pyset xs =>
    cases xs with
    | nil => simp [validate_xy_icons, iterableLen2Floats, hasIter, pyLen, pyUnpack2, pyElems]
    | cons a t =>
      cases t with
      | nil => simp [validate_xy_icons, iterableLen2Floats, hasIter, pyLen, pyUnpack2, pyElems]
      | cons b t2 =>
        cases t2 with
        | nil => simp [validate_xy_icons, iterableLen2Floats, hasIter, pyLen, pyUnpack2, pyElems]
        | cons c t3 => simp [validate_xy_icons, iterableLen2Floats, hasIter, pyLen, pyUnpack2, pyElems]
  | tup xs =>
    cases xs with
    | nil => simp [validate_xy_icons, iterableLen2Floats, hasIter, pyLen, pyUnpack2, pyElems]
    | cons a t =>
      cases t with
      | nil => simp [validate_xy_icons, iterableLen2Floats, hasIter, pyLen, pyUnpack2, pyElems]
      | cons b t2 =>
        cases t2 with
        | nil => simp [validate_xy_icons, iterableLen2Floats, hasIter, pyLen, pyUnpack2, pyElems]
        | cons c t3 => simp [validate_xy_icons, iterableLen2Floats, hasIter, pyLen, pyUnpack2, pyElems]

/-- A value accepted by the indexing validator is truthy in Python. -/
theorem validate_xy_truthy (v : PyVal) (h : validate_xy v = true) : pyTruthy v = true := by
  obtain ⟨a, b, rfl, -, -⟩ := (validate_xy_char v).mp h
  simp [pyTruthy]

/-- When the per-entry override is absent or invalid, the per-entry resolver
reduces to the default chain. -/
theorem basePlacementB_no_override (pp : Table) (amo : AMO) (atl : List String)
    (pei : String) (xOff yOff : ℚ) (acr : String) (cx cy : ℚ)
    (hov : ∀ v, lookup_xy pp acr = some v → validate_xy v = false) :
    basePlacementB pp amo atl pei xOff yOff acr cx cy
      = defaultPlacement validate_xy amo atl pei xOff yOff acr cx cy := by
  unfold basePlacementB
  cases h : lookup_xy pp acr with
  | none => rfl
  | some v => simp [hov v h]

/-- When the manual-offset entry is absent or invalid, the default chain
reduces to the Atlantic heuristic / centroid step. -/
theorem defaultPlacement_no_amo (valf : PyVal → Bool) (amo : AMO) (atl : List String)
    (pei : String) (xOff yOff : ℚ) (acr : String) (cx cy : ℚ)
    (hamo : ∀ v, dictGetV amo acr = some v → valf v = false) :
    defaultPlacement valf amo atl pei xOff yOff acr cx cy
      = atlanticOrCentroid atl pei xOff yOff acr cx cy := by
  unfold defaultPlacement
  cases h : dictGetV amo acr with
  | none => rfl
  | some v => simp [hamo v h]

/-- Claim C10 counterexample: a two-element Python set is an iterable of
length 2 whose elements both convert to float, yet the indexing form of
`validate_xy` returns False on it (sets are not subscriptable, so `xy[0]`
raises and the except branch returns False). -/
theorem c10_counterexample :
    validate_xy (PyVal.pyset [PyVal.num 1, PyVal.num 2]) = false
      ∧ iterableLen2Floats (PyVal.pyset [PyVal.num 1, PyVal.num 2]) = true := by
  exact ⟨rfl, rfl⟩

/-- Claim C10 (amended): the validator is total by construction and returns
False for None; the indexing variants return True exactly when the input is a
two-element subscriptable sequence whose elements convert to float (a
two-element set is rejected), while the unpacking variant of the icons script
returns True exactly when the input is any two-element iterable whose
elements convert to float. -/
theorem c10_validator_characterisation :
    validate_xy PyVal.none = false
    ∧ validate_xy_icons PyVal.none = false
    ∧ (∀ v, validate_xy v = true
        ↔ ∃ a b, v = PyVal.tup [a, b] ∧ (pyFloat a).isSome = true ∧ (pyFloat b).isSome = true)
    ∧ (∀ v, validate_xy_icons v = true ↔ iterableLen2Floats v = true) :=
  ⟨rfl, rfl, validate_xy_char, validate_xy_icons_char⟩

/-- Claim C3: validation succeeds exactly on two-element sequences of
float-convertible values, and an invalid supplied override is non-fatal: the
icons resolver falls back to the manual-offset/Atlantic/centroid chain (plus
the label-offset step) and returns successfully. -/
theorem c3_validation_and_fallback :
    (∀ v, validate_xy v = true
        ↔ ∃ a b, v = PyVal.tup [a, b] ∧ (pyFloat a).isSome = true ∧ (pyFloat b).isSome = true)
    ∧ (∀ (pp : Table) (amo : AMO) (xOff yOff : ℚ) (acr : String) (cx cy : ℚ)
        (e : ProvEntry) (v : PyVal),
        dictGet pp acr = some e → e.xy = some v → validate_xy_icons v = false →
        computeLabelPosIcons pp amo xOff yOff acr cx cy
          = Except.ok (applyLabelOffsetIcons pp acr
              (defaultPlacement validate_xy_icons amo atlanticPE "PE" xOff yOff acr cx cy)))
    ∧ (∀ (pp : Table) (acr : String) (p : ℚ × ℚ) (off : PyVal),
        lookup_label_offset pp acr = some off → validate_xy_icons off = false →
        applyLabelOffsetIcons pp acr p = p) := by
  refine ⟨validate_xy_char, ?_, ?_⟩
  · intro pp amo xOff yOff acr cx cy e v he hxy hval
    have hl : lookup_xy pp acr = some v := by simp [lookup_xy, he, hxy]
    unfold computeLabelPosIcons
    cases hk : (dictGet pp acr).isSome && tableHasKey pp "xy" with
    | true => simp [hk, hl, hval]
    | false => simp [hk]
  · intro pp acr p off hoff hval
    simp [applyLabelOffsetIcons, hoff, hval]

/-- Witness for C3: with an invalid override on NL the icons resolver
returns the Atlantic-heuristic position without error. -/
theorem c3_witness :
    computeLabelPosIcons ppC3 [] 60 60 "NL" 500 1000 = Except.ok (560, 1060) :=
  (c3_validation_and_fallback.2.1 ppC3 [] 60 60 "NL" 500 1000
      { xy := some PyVal.obj } PyVal.obj rfl rfl rfl).trans
    (by norm_num [applyLabelOffsetIcons, lookup_label_offset, ppC3, dictGet, defaultPlacement,
      dictGetV, atlanticOrCentroid, atlanticPE])

/-- Claim C1 (documents the code bug): in the resolver variants whose guard
tests `"xy" in per_province` on the outer table, a province entry with a
perfectly valid coordinate override is ignored and the label falls back to
the centroid, while the per-entry variants resolve to the override. -/
theorem c1_wholedict_override_ignored :
    computeLabelPosWholeDict ppC1 [] atlanticPE "PE" 60 60 "BC" 5 5 = Except.ok (5, 5)
    ∧ computeLabelPosB ppC1 [] atlanticPEI "PEI" 60 60 "BC" 5 5 = (100, 200) :=
  ⟨rfl, rfl⟩

/-- Claim C2: for an Atlantic acronym with no valid override and no valid
manual offset, the per-entry resolver places the label at the centroid
shifted by the span fractions with the acronym-specific multiplier. -/
theorem c2_atlantic_heuristic (pp : Table) (amo : AMO) (atl : List String)
    (pei : String) (xs ys cx cy : ℚ) (acr : String)
    (hov : ∀ v, lookup_xy pp acr = some v → validate_xy v = false)
    (hamo : ∀ v, dictGetV amo acr = some v → validate_xy v = false)
    (hatl : atl.contains acr = true) :
    basePlacementB pp amo atl pei (xs * (6 / 100)) (ys * (3 / 100)) acr cx cy
      = (cx + xs * (6 / 100), cy + ys * (3 / 100) * atlanticMultiplier pei acr) := by
  rw [basePlacementB_no_override pp amo atl pei _ _ acr cx cy hov,
    defaultPlacement_no_amo validate_xy amo atl pei _ _ acr cx cy hamo]
  simp only [atlanticOrCentroid, atlanticMultiplier, hatl, if_true]
  by_cases h1 : acr == "NL"
  · simp [h1]
  · by_cases h2 : acr == pei
    · simp [h1, h2]
    · by_cases h3 : acr == "NS"
      · simp only [h1, h2, h3, if_true, if_false, Bool.false_eq_true, Prod.mk.injEq]
        exact ⟨trivial, by ring⟩
      · simp only [h1, h2, h3, if_true, if_false, Bool.false_eq_true, Prod.mk.injEq]
        exact ⟨trivial, by ring⟩

/-- Witness for C2: the NL example scenario of the spec, centroid (500,
1000), spans 1000/2000, fractions 0.06/0.03, resolves to (560, 1060). -/
theorem c2_witness :
    basePlacementB [] [] atlanticPEI "PEI" (1000 * (6 / 100)) (2000 * (3 / 100)) "NL" 500 1000
      = (560, 1060) :=
  (c2_atlantic_heuristic [] [] atlanticPEI "PEI" 1000 2000 500 1000 "NL"
      (fun v h => by simp [lookup_xy, dictGet] at h)
      (fun v h => by simp [dictGetV] at h)
      rfl).trans (by norm_num [atlanticMultiplier])

/-- Claim C4: a non-Atlantic acronym with no valid override and no valid
manual offset is labeled exactly at its polygon centroid (base position,
before any label offset). -/
theorem c4_centroid_fallback (pp : Table) (amo : AMO) (atl : List String)
    (pei : String) (xOff yOff cx cy : ℚ) (acr : String)
    (hov : ∀ v, lookup_xy pp acr = some v → validate_xy v = false)
    (hamo : ∀ v, dictGetV amo acr = some v → validate_xy v = false)
    (hatl : atl.contains acr = false) :
    basePlacementB pp amo atl pei xOff yOff acr cx cy = (cx, cy) := by
  rw [basePlacementB_no_override pp amo atl pei xOff yOff acr cx cy hov,
    defaultPlacement_no_amo validate_xy amo atl pei xOff yOff acr cx cy hamo]
  unfold atlanticOrCentroid
  rw [hatl]
  simp

/-- Witness for C4: QC with an empty style table resolves to its centroid. -/
theorem c4_witness :
    basePlacementB [] [] atlanticPEI "PEI" 60 60 "QC" 7 9 = (7, 9) :=
  c4_centroid_fallback [] [] atlanticPEI "PEI" 60 60 7 9 "QC"
    (fun v h => by simp [lookup_xy, dictGet] at h)
    (fun v h => by simp [dictGetV] at h)
    rfl

/-- Claim C5: a panel-definition list whose length differs from the declared
grid size makes both panel renderers fail immediately with the ValueError
message, before any extent computation or drawing. -/
theorem c5_panel_count_check :
    (∀ (pds : List (String × List String)) (gdf : List Row) (pad ne xf yf : ℚ)
        (amo : AMO) (pp : Table) (pli : PLI), pds.length ≠ 4 →
      plot_2x2_panels pds gdf pad ne xf yf amo pp pli
        = Except.error "panel_definitions must be a list/tuple of 4 items (2x2 grid).")
    ∧ (∀ (pds : List (String × List String)) (gdf : List Row) (pad ne xf yf : ℚ)
        (amo : AMO) (pp : Table) (pli : PLI) (nrows ncols : Nat),
        pds.length ≠ nrows * ncols →
      plot_1x2_panels pds gdf pad ne xf yf amo pp pli nrows ncols
        = Except.error (panelCountMsg nrows ncols)) := by
  constructor
  · intro pds gdf pad ne xf yf amo pp pli h
    simp [plot_2x2_panels, h]
  · intro pds gdf pad ne xf yf amo pp pli nrows ncols h
    simp [plot_1x2_panels, h]

/-- Witness for C5: an empty panel list is rejected by both renderers. -/
theorem c5_witness :
    plot_2x2_panels [] [] 0 0 0 0 [] [] []
      = Except.error "panel_definitions must be a list/tuple of 4 items (2x2 grid)."
    ∧ plot_1x2_panels [] [] 0 0 0 0 [] [] [] 1 2 = Except.error (panelCountMsg 1 2) :=
  ⟨c5_panel_count_check.1 [] [] 0 0 0 0 [] [] [] (by decide),
    c5_panel_count_check.2 [] [] 0 0 0 0 [] [] [] 1 2 (by decide)⟩

/-- Claim C9: a missing fire or warning icon file makes the icon-overlay
renderer fail with the file-not-found error before anything is rendered. -/
theorem c9_missing_icon_fatal (fe : String → Bool) (fp wp : String)
    (targ : Option (List String)) (gdf : List Row) (pad ne xf yf nf gf : ℚ)
    (amo : AMO) (pp : Table) (zm : String) :
    (fe fp = false →
      plot_map_with_icons_below_labels fe fp wp targ gdf pad ne xf yf nf gf amo pp zm
        = Except.error ("Fire icon not found: " ++ fp))
    ∧ (fe fp = true → fe wp = false →
      plot_map_with_icons_below_labels fe fp wp targ gdf pad ne xf yf nf gf amo pp zm
        = Except.error ("Warning icon not found: " ++ wp)) := by
  constructor
  · intro h
    simp [plot_map_with_icons_below_labels, h]
  · intro h1 h2
    simp [plot_map_with_icons_below_labels, h1, h2]

/-- Witness for C9: with no file present the renderer reports the missing
fire icon. -/
theorem c9_witness :
    plot_map_with_icons_below_labels (fun _ => false) "Figures/fire.png" "Figures/warning.png"
      Option.none [] 0 0 0 0 0 0 [] [] "pct"
      = Except.error ("Fire icon not found: " ++ "Figures/fire.png") :=
  (c9_missing_icon_fatal (fun _ => false) "Figures/fire.png" "Figures/warning.png"
      Option.none [] 0 0 0 0 0 0 [] [] "pct").1 rfl

theorem legendLoop1x2_cons_sub (it : String × LegendSettings)
    (rest : List (String × LegendSettings)) (seen : List String)
    (h : it.2.is_subtitle = true) :
    legendLoop1x2 seen (it :: rest)
      = (if it.1.trim == "Some Activities" then [spacerHandle] else [])
          ++ subtitleHandle it.1 :: legendLoop1x2 seen rest := by
  simp [legendLoop1x2, h]

theorem legendLoop1x2_cons_seen (it : String × LegendSettings)
    (rest : List (String × LegendSettings)) (seen : List String)
    (h1 : it.2.is_subtitle = false) (h2 : it.1.trim ∈ seen) :
    legendLoop1x2 seen (it :: rest) = legendLoop1x2 seen rest := by
  simp [legendLoop1x2, h1, h2]

theorem legendLoop1x2_cons_new (it : String × LegendSettings)
    (rest : List (String × LegendSettings)) (seen : List String)
    (h1 : it.2.is_subtitle = false) (h2 : it.1.trim ∉ seen) :
    legendLoop1x2 seen (it :: rest)
      = mkRegularHandle it.1 it.2 :: legendLoop1x2 (it.1.trim :: seen) rest := by
  simp [legendLoop1x2, h1, h2]

theorem seenAfter_cons_sub (it : String × LegendSettings)
    (rest : List (String × LegendSettings)) (seen : List String)
    (h : it.2.is_subtitle = true) :
    seenAfter seen (it :: rest) = seenAfter seen rest := by
  simp [seenAfter, h]

theorem seenAfter_cons_seen (it : String × LegendSettings)
    (rest : List (String × LegendSettings)) (seen : List String)
    (h1 : it.2.is_subtitle = false) (h2 : it.1.trim ∈ seen) :
    seenAfter seen (it :: rest) = seenAfter seen rest := by
  simp [seenAfter, h1, h2]

theorem seenAfter_cons_new (it : String × LegendSettings)
    (rest : List (String × LegendSettings)) (seen : List String)
    (h1 : it.2.is_subtitle = false) (h2 : it.1.trim ∉ seen) :
    seenAfter seen (it :: rest) = seenAfter (it.1.trim :: seen) rest := by
  simp [seenAfter, h1, h2]

theorem regularCleanLabels_cons_sub (it : String × LegendSettings)
    (rest : List (String × LegendSettings)) (h : it.2.is_subtitle = true) :
    regularCleanLabels (it :: rest) = regularCleanLabels rest := by
  simp [regularCleanLabels, List.filter_cons, h]

theorem regularCleanLabels_cons_reg (it : String × LegendSettings)
    (rest : List (String × LegendSettings)) (h : it.2.is_subtitle = false) :
    regularCleanLabels (it :: rest) = it.1.trim :: regularCleanLabels rest := by
  simp [regularCleanLabels, List.filter_cons, h]

/-- The 1x2 legend loop splits over list append, threading the seen set. -/
theorem legendLoop1x2_append (xs ys : List (String × LegendSettings)) (seen : List String) :
    legendLoop1x2 seen (xs ++ ys)
      = legendLoop1x2 seen xs ++ legendLoop1x2 (seenAfter seen xs) ys := by
  induction xs generalizing seen with
  | nil => simp [legendLoop1x2, seenAfter]
  | cons it rest ih =>
    by_cases hsub : it.2.is_subtitle = true
    · rw [List.cons_append, legendLoop1x2_cons_sub it (rest ++ ys) seen hsub,
        legendLoop1x2_cons_sub it rest seen hsub, seenAfter_cons_sub it rest seen hsub, ih]
      simp
    · have hsub2 : it.2.is_subtitle = false := by simpa using hsub
      by_cases hseen : it.1.trim ∈ seen
      · rw [List.cons_append, legendLoop1x2_cons_seen it (rest ++ ys) seen hsub2 hseen,
          legendLoop1x2_cons_seen it rest seen hsub2 hseen,
          seenAfter_cons_seen it rest seen hsub2 hseen, ih]
      · rw [List.cons_append, legendLoop1x2_cons_new it (rest ++ ys) seen hsub2 hseen,
          legendLoop1x2_cons_new it rest seen hsub2 hseen,
          seenAfter_cons_new it rest seen hsub2 hseen, ih]
        simp

/-- The seen set after processing a list holds exactly the initial seen
labels and the stripped labels of the regular entries. -/
theorem seenAfter_mem (xs : List (String × LegendSettings)) (seen : List String) (c : String) :
    c ∈ seenAfter seen xs ↔ (c ∈ seen ∨ c ∈ regularCleanLabels xs) := by
  induction xs generalizing seen with
  | nil => simp [seenAfter, regularCleanLabels]
  | cons it rest ih =>
    by_cases hsub : it.2.is_subtitle = true
    · rw [seenAfter_cons_sub it rest seen hsub, regularCleanLabels_cons_sub it rest hsub, ih]
    · have hsub2 : it.2.is_subtitle = false := by simpa using hsub
      by_cases hseen : it.1.trim ∈ seen
      · rw [seenAfter_cons_seen it rest seen hsub2 hseen,
          regularCleanLabels_cons_reg it rest hsub2, ih, List.mem_cons]
        constructor
        · rintro (h | h)
          · exact Or.inl h
          · exact Or.inr (Or.inr h)
        · rintro (h | rfl | h)
          · exact Or.inl h
          · exact Or.inl hseen
          · exact Or.inr h
      · rw [seenAfter_cons_new it rest seen hsub2 hseen,
          regularCleanLabels_cons_reg it rest hsub2, ih, List.mem_cons, List.mem_cons]
        tauto

theorem blackLabels_cons_spacer (hs : List LegendHandle) :
    blackLabels (spacerHandle :: hs) = blackLabels hs := by
  simp [blackLabels, spacerHandle, List.filter_cons]

theorem blackLabels_cons_subtitle (l : String) (hs : List LegendHandle) :
    blackLabels (subtitleHandle l :: hs) = blackLabels hs := by
  simp [blackLabels, subtitleHandle, List.filter_cons]

theorem blackLabels_cons_reg (l : String) (s : LegendSettings) (hs : List LegendHandle) :
    blackLabels (mkRegularHandle l s :: hs) = l.trim :: blackLabels hs := by
  simp [blackLabels, mkRegularHandle, List.filter_cons]

/-- The swatch-bearing labels produced by the 1x2 legend loop are distinct
and disjoint from the incoming seen set. -/
theorem legendLoop1x2_black_nodup (xs : List (String × LegendSettings)) (seen : List String) :
    (blackLabels (legendLoop1x2 seen xs)).Nodup
    ∧ ∀ c ∈ blackLabels (legendLoop1x2 seen xs), c ∉ seen := by
  induction xs generalizing seen with
  | nil => simp [legendLoop1x2, blackLabels]
  | cons it rest ih =>
    by_cases hsub : it.2.is_subtitle = true
    · rw [legendLoop1x2_cons_sub it rest seen hsub]
      by_cases hsa : (it.1.trim == "Some Activities") = true
      · rw [if_pos hsa]
        simpa [blackLabels_cons_spacer, blackLabels_cons_subtitle, List.singleton_append]
          using ih seen
      · rw [if_neg hsa]
        simpa [blackLabels_cons_subtitle] using ih seen
    · have hsub2 : it.2.is_subtitle = false := by simpa using hsub
      by_cases hseen : it.1.trim ∈ seen
      · rw [legendLoop1x2_cons_seen it rest seen hsub2 hseen]
        exact ih seen
      · rw [legendLoop1x2_cons_new it rest seen hsub2 hseen, blackLabels_cons_reg]
        obtain ⟨ihn, ihf⟩ := ih (it.1.trim :: seen)
        constructor
        · rw [List.nodup_cons]
          refine ⟨fun hmem => ?_, ihn⟩
          exact (ihf _ hmem) (List.mem_cons_self _ _)
        · intro c hc
          rcases List.mem_cons.mp hc with rfl | hc2
          · exact hseen
          · intro hcs
            exact (ihf _ hc2) (List.mem_cons_of_mem _ hcs)

/-- Every bold handle produced by the 1x2 legend loop is an invisible
heading patch. -/
theorem legendLoop1x2_bold (xs : List (String × LegendSettings)) (seen : List String) :
    ∀ h ∈ legendLoop1x2 seen xs, h.bold = true → h.facecolor = "none" ∧ h.edgecolor = "none" := by
  induction xs generalizing seen with
  | nil => simp [legendLoop1x2]
  | cons it rest ih =>
    by_cases hsub : it.2.is_subtitle = true
    · rw [legendLoop1x2_cons_sub it rest seen hsub]
      intro h hmem hb
      rcases List.mem_append.mp hmem with hsp | hrest
      · by_cases hsa : (it.1.trim == "Some Activities") = true
        · rw [if_pos hsa] at hsp
          have : h = spacerHandle := by simpa using hsp
          rw [this] at hb
          exact absurd hb (by simp [spacerHandle])
        · rw [if_neg hsa] at hsp
          exact absurd hsp (by simp)
      · rcases List.mem_cons.mp hrest with rfl | h2
        · exact ⟨rfl, rfl⟩
        · exact ih seen h h2 hb
    · have hsub2 : it.2.is_subtitle = false := by simpa using hsub
      by_cases hseen : it.1.trim ∈ seen
      · rw [legendLoop1x2_cons_seen it rest seen hsub2 hseen]
        exact ih seen
      · rw [legendLoop1x2_cons_new it rest seen hsub2 hseen]
        intro h hmem hb
        rcases List.mem_cons.mp hmem with rfl | h2
        · exact absurd hb (by simp [mkRegularHandle])
        · exact ih (it.1.trim :: seen) h h2 hb

theorem legendLoop2x2_cons_seen (it : String × LegendSettings)
    (rest : List (String × LegendSettings)) (seen : List String)
    (h2 : it.1.trim ∈ seen) :
    legendLoop2x2 seen (it :: rest) = legendLoop2x2 seen rest := by
  simp [legendLoop2x2, h2]

theorem legendLoop2x2_cons_new (it : String × LegendSettings)
    (rest : List (String × LegendSettings)) (seen : List String)
    (h2 : it.1.trim ∉ seen) :
    legendLoop2x2 seen (it :: rest)
      = mkRegularHandle it.1 it.2 :: legendLoop2x2 (it.1.trim :: seen) rest := by
  simp [legendLoop2x2, h2]

/-- The labels produced by the 2x2 legend loop are distinct and disjoint
from the incoming seen set. -/
theorem legendLoop2x2_nodup (xs : List (String × LegendSettings)) (seen : List String) :
    ((legendLoop2x2 seen xs).map (fun h => h.label)).Nodup
    ∧ ∀ c ∈ (legendLoop2x2 seen xs).map (fun h => h.label), c ∉ seen := by
  induction xs generalizing seen with
  | nil => simp [legendLoop2x2]
  | cons it rest ih =>
    by_cases hseen : it.1.trim ∈ seen
    · rw [legendLoop2x2_cons_seen it rest seen hseen]
      exact ih seen
    · rw [legendLoop2x2_cons_new it rest seen hseen]
      obtain ⟨ihn, ihf⟩ := ih (it.1.trim :: seen)
      constructor
      · rw [List.map_cons, List.nodup_cons]
        refine ⟨fun hmem => ?_, ihn⟩
        exact (ihf _ hmem) (List.mem_cons_self _ _)
      · intro c hc
        rcases List.mem_cons.mp hc with rfl | hc2
        · exact hseen
        · intro hcs
          exact (ihf _ hc2) (List.mem_cons_of_mem _ hcs)

/-- Claim C6: with leader lines enabled, a straight segment is drawn from the
anchor (the valid explicit line start, else the centroid) to the label
exactly when the label is displaced by more than 1000 map units in x or in y;
with leader lines disabled or within the threshold nothing is drawn. -/
theorem c6_leader_line_rule (pp : Table) (acr : String) (cx cy lx ly : ℚ) :
    leaderLineDraw pp acr cx cy lx ly
      = (let e := (dictGet pp acr).getD {}
         let a := anchorPoint e cx cy
         if e.leader_line = true ∧ (abs (lx - a.1) > 1000 ∨ abs (ly - a.2) > 1000)
         then some { x1 := a.1, y1 := a.2, x2 := lx, y2 := ly }
         else Option.none) := by
  unfold leaderLineDraw anchorPoint
  cases hl : ((dictGet pp acr).getD {}).leader_line with
  | false => simp [hl]
  | true =>
    cases hs : ((dictGet pp acr).getD {}).line_start with
    | none => simp [hl, hs]
    | some v =>
      cases hv : validate_xy v with
      | false => simp [hl, hs, hv]
      | true => simp [hl, hs, hv, validate_xy_truthy v hv]

/-- Claim C7: in both multi-panel renderers every produced panel carries the
same global axis extent (dataset bounds plus the padding fraction, with the
extra northward margin only on the top), independent of the provinces the
panel selects. -/
theorem c7_shared_extent :
    (∀ (pds : List (String × List String)) (gdf : List Row) (pad ne xf yf : ℚ)
        (amo : AMO) (pp : Table) (pli : PLI) (out : List PanelOut),
        plot_2x2_panels pds gdf pad ne xf yf amo pp pli = Except.ok out →
        ∀ p ∈ out, p.xlim = paddedXLim gdf pad ∧ p.ylim = paddedYLim gdf pad ne)
    ∧ (∀ (pds : List (String × List String)) (gdf : List Row) (pad ne xf yf : ℚ)
        (amo : AMO) (pp : Table) (pli : PLI) (nrows ncols : Nat) (out : List PanelOut),
        plot_1x2_panels pds gdf pad ne xf yf amo pp pli nrows ncols = Except.ok out →
        ∀ p ∈ out, p.xlim = paddedXLim gdf pad ∧ p.ylim = paddedYLim gdf pad ne) := by
  constructor
  · intro pds gdf pad ne xf yf amo pp pli out hok p hp
    unfold plot_2x2_panels at hok
    by_cases h4 : (pds.length != 4) = true
    · rw [if_pos h4] at hok
      exact absurd hok (by simp)
    · rw [if_neg h4] at hok
      simp only [Except.ok.injEq] at hok
      subst hok
      obtain ⟨ip, hip, rfl⟩ := List.mem_map.mp hp
      exact ⟨rfl, rfl⟩
  · intro pds gdf pad ne xf yf amo pp pli nrows ncols out hok p hp
    unfold plot_1x2_panels at hok
    by_cases h4 : (pds.length != nrows * ncols) = true
    · rw [if_pos h4] at hok
      exact absurd hok (by simp)
    · rw [if_neg h4] at hok
      simp only [Except.ok.injEq] at hok
      subst hok
      obtain ⟨ip, hip, rfl⟩ := List.mem_map.mp hp
      exact ⟨rfl, rfl⟩

/-- Witness for C7: a concrete four-panel run in which the first panel
carries the global padded extent. -/
theorem c7_witness :
    panelW7.xlim = paddedXLim [] 0 ∧ panelW7.ylim = paddedYLim [] 0 0 :=
  c7_shared_extent.1 pdsW7 [] 0 0 0 0 [] [] [] outW7
    (by norm_num [plot_2x2_panels, pdsW7, renderPanelB, paddedXLim, paddedYLim, totalBounds,
      spanOr1, labeledRows, dictGetNat, List.enum, outW7, panelW7])
    panelW7 (by simp [outW7])

/-- Claim C8: in the panel legends, regular entries are deduplicated on their
stripped label (the swatch-bearing handles carry pairwise distinct labels,
and a regular entry is dropped exactly when its stripped label was already
added), heading entries are always appended regardless of duplicates and
render as bold patches with no face or edge color. -/
theorem c8_legend_dedup_and_headings :
    (∀ items, (blackLabels (buildPanelLegend1x2 items)).Nodup)
    ∧ (∀ items, ∀ h ∈ buildPanelLegend1x2 items, h.bold = true →
        h.facecolor = "none" ∧ h.edgecolor = "none")
    ∧ (∀ items (lab : String) (s : LegendSettings), s.is_subtitle = true →
        buildPanelLegend1x2 (items ++ [(lab, s)])
          = buildPanelLegend1x2 items
            ++ ((if lab.trim == "Some Activities" then [spacerHandle] else [])
              ++ [subtitleHandle lab]))
    ∧ (∀ items (lab : String) (s : LegendSettings), s.is_subtitle = false →
        buildPanelLegend1x2 (items ++ [(lab, s)])
          = buildPanelLegend1x2 items
            ++ (if lab.trim ∈ regularCleanLabels items then [] else [mkRegularHandle lab s]))
    ∧ (∀ items, ((buildPanelLegend2x2 items).map (fun h => h.label)).Nodup) := by
  refine ⟨?_, ?_, ?_, ?_, ?_⟩
  · intro items
    exact (legendLoop1x2_black_nodup items []).1
  · intro items
    exact legendLoop1x2_bold items []
  · intro items lab s hs
    unfold buildPanelLegend1x2
    rw [legendLoop1x2_append, legendLoop1x2_cons_sub (lab, s) [] _ hs]
    simp [legendLoop1x2]
  · intro items lab s hs
    unfold buildPanelLegend1x2
    rw [legendLoop1x2_append]
    by_cases hc : lab.trim ∈ regularCleanLabels items
    · have hcs : (lab, s).1.trim ∈ seenAfter [] items := by
        rw [seenAfter_mem]
        exact Or.inr hc
      rw [legendLoop1x2_cons_seen (lab, s) [] _ hs hcs, if_pos hc]
      simp [legendLoop1x2]
    · have hcs : (lab, s).1.trim ∉ seenAfter [] items := by
        rw [seenAfter_mem]
        simpa using hc
      rw [legendLoop1x2_cons_new (lab, s) [] _ hs hcs, if_neg hc]
      simp [legendLoop1x2]
  · intro items
    exact (legendLoop2x2_nodup items []).1

/-- Witness for C8: appending a heading entry always extends the built
legend with its bold text-only handle. -/
theorem c8_witness :
    buildPanelLegend1x2 (itemsW8 ++ [("All Activities", subW8)])
      = buildPanelLegend1x2 itemsW8
        ++ ((if ("All Activities" : String).trim == "Some Activities" then [spacerHandle] else [])
          ++ [subtitleHandle "All Activities"]) :=
  c8_legend_dedup_and_headings.2.2.1 itemsW8 "All Activities" subW8 rfl

end CanGov
